import Mathlib

/-!
Verification of the `ellarises-intex` server (`src/index.js`) against its
natural-language specification.

Modelling conventions for the shallow embedding:
* JavaScript strings are lists of characters (`List Char`); `str` converts a
  Lean string literal to that representation.
* Timestamps (`new Date()` values) are natural numbers (milliseconds since the
  epoch); all comparisons in the source are numeric comparisons of such values.
* Database tables are lists of row structures; `knex(...).where(...).first()`
  is `List.find?`, `count(* as count)` is `List.length` of a `List.filter`,
  `update` is a `List.map`, and `insert` appends a row.
* Nullable SQL columns are `Option` fields; the JavaScript truthiness tests the
  source applies to them are modelled case by case (`null`/`0`/`''` falsy).
-/

namespace EllaRises

/-- JavaScript `String.prototype.startsWith`: does `s` begin with `p`? -/
def strStartsWith : List Char → List Char → Bool
  | _, [] => true
  | [], _ :: _ => false
  | c :: cs, q :: qs => c == q && strStartsWith cs qs

/-- JavaScript `String.prototype.endsWith`: does `s` end with `p`? -/
def strEndsWith (s p : List Char) : Bool :=
  strStartsWith s.reverse p.reverse

/-- JavaScript `String.prototype.toLowerCase`, on the ASCII data used here. -/
def lowerStr (s : List Char) : List Char := s.map Char.toLower

/-- A Lean string literal as the character-list representation used throughout. -/
def str (s : String) : List Char := s.data

/-- The per-request session state read by the global middleware
(`req.session.isLoggedIn`, `req.session.level`, `req.session.user_id`).
An absent or empty `level` is modelled as `[]` (both are falsy and neither
lower-cases to `admin`); an absent or falsy `user_id` is modelled as `0`. -/
structure SessionState where
  isLoggedIn : Bool
  level : List Char
  user_id : Nat
deriving DecidableEq

/-- Outcome of the global authentication middleware for one request:
either the request is passed on to its route handler (`next`), or the login
page is rendered with an `error_message` (empty for a plain login prompt,
`Authentication error` for an authorization failure). -/
inductive Decision where
  | next
  | renderLogin (error_message : List Char)
deriving DecidableEq

/-- The `public_routes` list of the middleware (src/index.js line 130). -/
def public_routes : List (List Char) :=
  [str "/", str "/login", str "/register", str "/about", str "/events",
   str "/donate", str "/analytics", str "/teapot"]

/-- The static `admin_routes` list of the middleware (src/index.js lines 138-149). -/
def admin_routes : List (List Char) :=
  [str "/manage-events", str "/manage-events/new", str "/manage-milestones",
   str "/manage-milestones/new", str "/manage-surveys", str "/manage-donations",
   str "/manage-donations/new", str "/manage-donations/export",
   str "/manage-participants", str "/manage-participants/new"]

/-- The dynamic admin-route matcher (src/index.js lines 156-159): a path is a
dynamic admin route when it starts with one of the `/manage-*/` resource
strings and ends with one of the action suffixes paired with it. -/
def isDynamicAdminRoute (p : List Char) : Bool :=
  (strStartsWith p (str "/manage-events/") &&
     (strEndsWith p (str "/delete") || strEndsWith p (str "/new"))) ||
  (strStartsWith p (str "/manage-milestones/") &&
     (strEndsWith p (str "/delete") || strEndsWith p (str "/update"))) ||
  (strStartsWith p (str "/manage-donations/") &&
     (strEndsWith p (str "/delete") || strEndsWith p (str "/update"))) ||
  (strStartsWith p (str "/manage-participants/") &&
     (strEndsWith p (str "/delete") || strEndsWith p (str "/update") ||
      strEndsWith p (str "/milestones") || strEndsWith p (str "/milestones/add") ||
      strEndsWith p (str "/milestones/remove")))

/-- The admin-authorization test the middleware applies on both admin branches:
`!req.session.isLoggedIn || !req.session.level || req.session.level.toLowerCase() !== 'admin'`. -/
def adminCheckFails (s : SessionState) : Bool :=
  !s.isLoggedIn || s.level == [] || lowerStr s.level != str "admin"

/-- The global authentication middleware (src/index.js lines 128-184):
public routes and `/lang/` pass through; dynamic and static admin routes
require an authenticated session whose role lower-cases to `admin` and render
the login page with `Authentication error` otherwise; every other path merely
requires an authenticated session. -/
def authMiddleware (p : List Char) (s : SessionState) : Decision :=
  if public_routes.contains p || strStartsWith p (str "/lang/") then .next
  else if isDynamicAdminRoute p then
    if adminCheckFails s then .renderLogin (str "Authentication error") else .next
  else if admin_routes.contains p then
    if adminCheckFails s then .renderLogin (str "Authentication error") else .next
  else if s.isLoggedIn then .next
  else .renderLogin (str "")

/-! ## Event registration engine (`POST /events/:event_occurrence_id/register`,
src/index.js lines 405-476) and cancellation
(`POST /registrations/:registration_id/cancel`, lines 1626-1649). -/

/-- A row of `event_occurrences` with the columns the register route reads:
`event_date_time_start`, `event_registration_deadline` (nullable timestamp,
`none` = no deadline) and `event_capacity` (nullable integer, `none` = NULL). -/
structure EventOccurrence where
  event_occurrence_id : Nat
  event_date_time_start : Nat
  event_registration_deadline : Option Nat
  event_capacity : Option Int
deriving DecidableEq

/-- A row of the `registration` table. `registration_status` is nullable
(`none` = pending/active); the insert performed by the register route leaves
the attended flag and check-in time NULL. -/
structure Registration where
  registration_id : Nat
  user_id : Nat
  event_occurrence_id : Nat
  registration_status : Option (List Char)
  registration_attended_flag : Option Bool
  registration_check_in_time : Option Nat
  registration_created_at : Option Nat
deriving DecidableEq

/-- The slice of the database the registration engine touches. -/
structure Db where
  event_occurrences : List EventOccurrence
  registrations : List Registration
deriving DecidableEq

/-- Lookup `knex('event_occurrences').where('event_occurrence_id', id).first()`. -/
def findOccurrence (db : Db) (eid : Nat) : Option EventOccurrence :=
  db.event_occurrences.find? (fun ev => ev.event_occurrence_id == eid)

/-- Lookup `knex('registration').where({user_id, event_occurrence_id}).first()`:
the duplicate check matches on the pair alone, with no status filter. -/
def findRegistration (db : Db) (uid eid : Nat) : Option Registration :=
  db.registrations.find? (fun r => r.user_id == uid && r.event_occurrence_id == eid)

/-- Count `knex('registration').where('event_occurrence_id', id).count(* as count)`:
every row for the occurrence is counted, whatever its status. -/
def countRegistrations (db : Db) (eid : Nat) : Nat :=
  (db.registrations.filter (fun r => r.event_occurrence_id == eid)).length

/-- Number of registration rows stored for the pair `(uid, eid)`. -/
def countRegistrationsFor (db : Db) (uid eid : Nat) : Nat :=
  (db.registrations.filter
    (fun r => r.user_id == uid && r.event_occurrence_id == eid)).length

/-- The guard `event.event_capacity && currentCount >= event.event_capacity`:
a NULL capacity is falsy, and so is a capacity of `0`, so both mean
"no capacity limit"; any other value is compared against the count. -/
def capacityFull (cap : Option Int) (currentCount : Nat) : Bool :=
  match cap with
  | none => false
  | some c => c != 0 && (currentCount : Int) ≥ c

/-- The guard `deadline && deadline < currentDate`: a NULL deadline column is
falsy and skips the check; otherwise the deadline is compared to `now`. -/
def deadlineBlocked (dl : Option Nat) (now : Nat) : Bool :=
  match dl with
  | some d => d < now
  | none => false

/-- The outcome of the register route, keyed by the redirect it issues. -/
inductive RegisterResult where
  | ok
  | notLoggedIn
  | notFound
  | alreadyStarted
  | deadlinePassed
  | alreadyRegistered
  | capacityReached
deriving DecidableEq

/-- The register route (src/index.js lines 405-476), as a function of the
current time `now`, the fresh id the store will assign to an inserted row,
the database and the session user.  Checks run in source order: session,
existence, `eventStart < currentDate`, deadline, duplicate, capacity; only
then is a row inserted with NULL status and `created_at = now`.  A session
without a user id (`!userId`, modelled as `uid = 0`) is redirected to login. -/
def registerForEvent (now freshId : Nat) (db : Db) (uid eid : Nat) :
    RegisterResult × Db :=
  if uid == 0 then (.notLoggedIn, db)
  else
    match findOccurrence db eid with
    | none => (.notFound, db)
    | some ev =>
      if ev.event_date_time_start < now then (.alreadyStarted, db)
      else if deadlineBlocked ev.event_registration_deadline now then
        (.deadlinePassed, db)
      else if (findRegistration db uid eid).isSome then (.alreadyRegistered, db)
      else if capacityFull ev.event_capacity (countRegistrations db eid) then
        (.capacityReached, db)
      else
        (.ok, { db with registrations := db.registrations ++
          [{ registration_id := freshId
             user_id := uid
             event_occurrence_id := eid
             registration_status := none
             registration_attended_flag := none
             registration_check_in_time := none
             registration_created_at := some now }] })

/-- Outcome of the cancel route: a redirect to the registration owner's page
on success, or the `Registration does not exist` error redirect. -/
inductive CancelResult where
  | ok (redirect_user_id : Nat)
  | notFound
deriving DecidableEq

/-- The cancel route (src/index.js lines 1626-1649).  The handler has the
session available (`sess`) but never consults it: it looks the registration up
by id alone, and on success updates that row's status to `Cancelled` and
redirects to `/registrations/` followed by the row's own `user_id`. -/
def cancelRegistration (sess : SessionState) (db : Db) (rid : Nat) :
    CancelResult × Db :=
  match db.registrations.find? (fun r => r.registration_id == rid) with
  | none => (.notFound, db)
  | some r =>
    (.ok r.user_id,
     { db with registrations := db.registrations.map (fun x =>
         if x.registration_id == rid then
           { x with registration_status := some (str "Cancelled") }
         else x) })

/-! ## Survey scoring (`POST /add-survey/:registration_id`, src/index.js
lines 1526-1549, and the form guard of `GET /add-survey/...`, lines 1483-1524). -/

/-- A row of the `surveys` table as written by the submit route.  The four
sub-scores arrive as 1-5 form values; `overall_score` is stored as the exact
quotient the route computes. -/
structure Survey where
  survey_id : Nat
  registration_id : Nat
  satisfaction_score : Int
  usefulness_score : Int
  instructor_score : Int
  recommendation_score : Int
  overall_score : ℚ
  nps_bucket : List Char
  survey_comments : List Char
  survey_submission_date : Nat
deriving DecidableEq

/-- Line 1533: `overall_score = (satisfaction + usefulness + instructor +
recommendation) / 4`, with exact (unrounded) arithmetic. -/
def overallScore (s u i r : Int) : ℚ :=
  ((s : ℚ) + (u : ℚ) + (i : ℚ) + (r : ℚ)) / 4

/-- Line 1536: `rec >= 4 ? 'Promoter' : rec < 3 ? 'Detractor' : 'Passive'`,
computed from the recommendation score alone. -/
def npsBucket (rec : Int) : List Char :=
  if rec ≥ 4 then str "Promoter"
  else if rec < 3 then str "Detractor"
  else str "Passive"

/-- Outcome of the survey submit route: the success redirect to `/surveys`, or
the catch branch rendering the form with a generic error message. -/
inductive SubmitResult where
  | ok
  | dbError
deriving DecidableEq

/-- The slice of the database the survey routes touch: the `registration`
table (target of the surveys foreign key) and the `surveys` table. -/
structure SurveyDb where
  registrations : List Registration
  surveys : List Survey
deriving DecidableEq

/-- Route `POST /add-survey/:registration_id` (src/index.js lines 1526-1549):
computes the submission date, overall score and NPS bucket, then inserts the
row with no duplicate check of any kind.  The only failure is the store
rejecting the insert, which for this schema means the foreign key into
`registration` is unsatisfied — the `surveys` table carries no uniqueness
constraint on `registration_id` (src/data/tableCreation.sql lines 76-88). -/
def submitSurvey (now freshId : Nat) (db : SurveyDb) (rid : Nat)
    (satisfaction usefulness instructor recommendation : Int)
    (comments : List Char) : SubmitResult × SurveyDb :=
  if (db.registrations.find? (fun r => r.registration_id == rid)).isSome then
    (.ok, { db with surveys := db.surveys ++
      [{ survey_id := freshId
         registration_id := rid
         satisfaction_score := satisfaction
         usefulness_score := usefulness
         instructor_score := instructor
         recommendation_score := recommendation
         overall_score := overallScore satisfaction usefulness instructor recommendation
         nps_bucket := npsBucket recommendation
         survey_comments := comments
         survey_submission_date := now }] })
  else (.dbError, db)

/-- The guard of `GET /add-survey/:registration_id/:event_occurrence_id`
(src/index.js lines 1487-1494): the form page is refused with a
`Survey already exists` redirect when a survey row for `registration_id`
already exists.  The POST route performs no such check. -/
def surveyExists (db : SurveyDb) (rid : Nat) : Bool :=
  (db.surveys.find? (fun v => v.registration_id == rid)).isSome

/-- Number of survey rows stored for a registration. -/
def countSurveysFor (db : SurveyDb) (rid : Nat) : Nat :=
  (db.surveys.filter (fun v => v.registration_id == rid)).length

/-! ## Admin donations listing (`GET /manage-donations`, src/index.js
lines 1180-1289): search filter, pagination, count query. -/

/-- A row of the `users` table with the columns the listing selects
(all NOT NULL in the schema). -/
structure UserRow where
  user_id : Nat
  user_email : List Char
  user_first_name : List Char
  user_last_name : List Char
deriving DecidableEq

/-- A row of the `donations` table. -/
structure Donation where
  donation_id : Nat
  user_id : Nat
  donation_amount : ℚ
  donation_date : Option Nat
deriving DecidableEq

/-- A record produced by `knex('donations').innerJoin('users', ...)` with the
columns the route selects. -/
structure DonationRow where
  donation_id : Nat
  user_id : Nat
  donation_amount : ℚ
  donation_date : Option Nat
  user_email : List Char
  user_first_name : List Char
  user_last_name : List Char
deriving DecidableEq

/-- The tables the donations listing reads. -/
structure DonationsDb where
  users : List UserRow
  donations : List Donation
deriving DecidableEq

/-- The inner join of `donations` with `users` on `user_id`. -/
def joinDonationsUsers (db : DonationsDb) : List DonationRow :=
  db.donations.flatMap (fun d =>
    (db.users.filter (fun u => u.user_id == d.user_id)).map (fun u =>
      { donation_id := d.donation_id
        user_id := d.user_id
        donation_amount := d.donation_amount
        donation_date := d.donation_date
        user_email := u.user_email
        user_first_name := u.user_first_name
        user_last_name := u.user_last_name }))

/-- Containment of `pat` as a contiguous substring of `s`. -/
def hasSubstr : List Char → List Char → Bool
  | [], pat => strStartsWith [] pat
  | c :: rest, pat => strStartsWith (c :: rest) pat || hasSubstr rest pat

/-- Predicate `column ilike '%' + term + '%'`: case-insensitive containment of
the term in the column (search terms without SQL wildcard characters, which is
the only way the listing uses `ilike`). -/
def ilikeContains (column term : List Char) : Bool :=
  hasSubstr (lowerStr column) (lowerStr term)

/-- JavaScript `String.prototype.trim`, over the whitespace characters that
can occur in a query string. -/
def jsWhitespace (c : Char) : Bool :=
  c == ' ' || c == '\t' || c == '\n' || c == '\r' || c == '\x0b' || c == '\x0c'

/-- JavaScript `String.prototype.trim`: strip leading and trailing whitespace. -/
def jsTrim (s : List Char) : List Char :=
  ((s.dropWhile jsWhitespace).reverse.dropWhile jsWhitespace).reverse

/-- The search predicate of the data query (src/index.js lines 1205-1209):
first name, last name, or `concat_ws(' ', first, last)` contains the trimmed
term, case-insensitively. -/
def donationSearchPred (term : List Char) (row : DonationRow) : Bool :=
  ilikeContains row.user_first_name term ||
  ilikeContains row.user_last_name term ||
  ilikeContains (row.user_first_name ++ [' '] ++ row.user_last_name) term

/-- The search predicate of the count query (src/index.js lines 1249-1253),
transcribed from its own copy of the filter code. -/
def donationCountPred (term : List Char) (row : DonationRow) : Bool :=
  ilikeContains row.user_first_name term ||
  ilikeContains row.user_last_name term ||
  ilikeContains (row.user_first_name ++ [' '] ++ row.user_last_name) term

/-- Ordering `donation_date DESC NULLS LAST`. -/
def dateDescNullsLast (a b : DonationRow) : Bool :=
  match a.donation_date, b.donation_date with
  | some x, some y => y ≤ x
  | some _, none => true
  | none, some _ => false
  | none, none => true

/-- Stable insertion into a sorted list, for the ORDER BY step. -/
def insertSorted (le : DonationRow → DonationRow → Bool) (x : DonationRow) :
    List DonationRow → List DonationRow
  | [] => [x]
  | y :: ys => if le x y then x :: y :: ys else y :: insertSorted le x ys

/-- Stable sort of the joined rows, for the ORDER BY step. -/
def sortRows (le : DonationRow → DonationRow → Bool) (l : List DonationRow) :
    List DonationRow :=
  l.foldr (insertSorted le) []

/-- Ceiling division `Math.ceil(a / b)` as the route computes it, with real
(here rational) division. -/
def jsCeilDiv (a b : Nat) : Nat :=
  (⌈((a : ℚ) / (b : ℚ))⌉).toNat

/-- The values the route passes to `res.render('manage-donations', ...)` that
concern search and pagination. -/
structure ManageDonationsView where
  donation : List DonationRow
  currentPage : Nat
  totalCount : Nat
  totalPages : Nat
deriving DecidableEq

/-- Route `GET /manage-donations` (src/index.js lines 1180-1289).
`pageParam` models `parseInt(req.query.page, 10)` (`none` for a missing or
non-numeric parameter; `|| 1` also turns `0` into `1`).  The data query
filters the join by `donationSearchPred` when the trimmed search string is
non-empty, orders by date descending, and applies `limit(perPage)` and
`offset((page - 1) * perPage)`.  The count query filters its own copy of the
join by `donationCountPred` under the same emptiness test, and
`totalPages = Math.ceil(totalCount / perPage)`. -/
def manageDonations (db : DonationsDb) (searchQuery : List Char)
    (pageParam : Option Nat) : ManageDonationsView :=
  let page : Nat := match pageParam with
    | none => 1
    | some 0 => 1
    | some p => p
  let perPage : Nat := 20
  let offset : Nat := (page - 1) * perPage
  let joined := joinDonationsUsers db
  let donationsQuery :=
    if jsTrim searchQuery != [] then
      joined.filter (donationSearchPred (jsTrim searchQuery))
    else joined
  let pageRows := ((sortRows dateDescNullsLast donationsQuery).drop offset).take perPage
  let countQuery :=
    if jsTrim searchQuery != [] then
      joined.filter (donationCountPred (jsTrim searchQuery))
    else joined
  let totalCount := countQuery.length
  { donation := pageRows
    currentPage := page
    totalCount := totalCount
    totalPages := jsCeilDiv totalCount perPage }

/-! ## Admin participants listing (`GET /manage-participants`, src/index.js
lines 1822-1905): the other admin listing whose count query matters here. -/

/-- The search predicate of the participants data query (src/index.js lines
1850-1863): first name, last name, or the `concat_ws(' ', first, last)` full
name contains the trimmed term, case-insensitively. -/
def participantsSearchPred (term : List Char) (u : UserRow) : Bool :=
  ilikeContains u.user_first_name term ||
  ilikeContains u.user_last_name term ||
  ilikeContains (u.user_first_name ++ [' '] ++ u.user_last_name) term

/-- The predicate of the participants count query (src/index.js lines
1872-1881): despite the adjacent comment `Build count query with same filter`,
this copy has only the first-name and last-name clauses — the full-name
`concat_ws` clause of the data query is missing. -/
def participantsCountPred (term : List Char) (u : UserRow) : Bool :=
  ilikeContains u.user_first_name term ||
  ilikeContains u.user_last_name term

/-- The two filtered row sets and the reported page total of
`GET /manage-participants`: the data query's matching rows (before ORDER BY
and LIMIT/OFFSET, which do not change which rows match), the count query's
total, and `totalPages = Math.ceil(totalCount / 20)`. -/
def manageParticipantsCounts (users : List UserRow) (searchQuery : List Char) :
    List UserRow × Nat × Nat :=
  let dataRows :=
    if jsTrim searchQuery != [] then
      users.filter (participantsSearchPred (jsTrim searchQuery))
    else users
  let totalCount :=
    (if jsTrim searchQuery != [] then
      users.filter (participantsCountPred (jsTrim searchQuery))
    else users).length
  (dataRows, totalCount, jsCeilDiv totalCount 20)

/-! ## Concrete instances used by witnesses and counterexamples. -/

/-- An occurrence with no capacity limit and no deadline, starting at 1000. -/
def occNoCap : EventOccurrence := ⟨1, 1000, none, none⟩

/-- A database with one open occurrence and no registrations. -/
def dbEmpty : Db := ⟨[occNoCap], []⟩

/-- A `Cancelled` registration of user 7 for occurrence 1. -/
def rowCancelled : Registration := ⟨1, 7, 1, some (str "Cancelled"), none, none, some 5⟩

/-- A database where user 7 holds a cancelled registration for occurrence 1. -/
def dbCancelled : Db := ⟨[occNoCap], [rowCancelled]⟩

/-- An occurrence with capacity 1. -/
def occCapOne : EventOccurrence := ⟨1, 1000, none, some 1⟩

/-- A database with a capacity-1 occurrence and no registrations. -/
def dbCapOne : Db := ⟨[occCapOne], []⟩

/-- An occurrence whose capacity column holds 0. -/
def occCapZero : EventOccurrence := ⟨1, 1000, none, some 0⟩

/-- A database with a capacity-0 occurrence and no registrations. -/
def dbCapZero : Db := ⟨[occCapZero], []⟩

/-- An occurrence starting at time 100. -/
def occStart100 : EventOccurrence := ⟨1, 100, none, none⟩

/-- A database whose only occurrence starts at time 100. -/
def dbStart100 : Db := ⟨[occStart100], []⟩

/-- A cancelled registration of user 5 for occurrence 1. -/
def rowCancelled5 : Registration := ⟨1, 5, 1, some (str "Cancelled"), none, none, some 5⟩

/-- A capacity-1 occurrence whose single registration row is cancelled. -/
def dbFullCancelled : Db := ⟨[occCapOne], [rowCancelled5]⟩

/-- An active registration row with id 2 owned by user 5. -/
def rowOwned5 : Registration := ⟨2, 5, 1, none, none, none, some 3⟩

/-- A database holding `rowOwned5`, the target of a cancel call. -/
def dbCancelTarget : Db := ⟨[occNoCap], [rowOwned5]⟩

/-- An active registration row with id 1 owned by user 7. -/
def regRow1 : Registration := ⟨1, 7, 1, none, none, none, some 3⟩

/-- A survey already stored for registration 1. -/
def sampleSurvey : Survey :=
  ⟨1, 1, 5, 4, 3, 4, overallScore 5 4 3 4, npsBucket 4, [], 50⟩

/-- A survey database in which registration 1 already has a survey. -/
def sdbWithSurvey : SurveyDb := ⟨[regRow1], [sampleSurvey]⟩

/-- A survey database in which registration 1 has no survey yet. -/
def sdbNoSurvey : SurveyDb := ⟨[regRow1], []⟩

/-- A donor row. -/
def userAda : UserRow := ⟨5, str "ada@example.org", str "Ada", str "Lovelace"⟩

/-- A donation by that donor. -/
def donationOne : Donation := ⟨1, 5, 100, some 10⟩

/-- A one-user, one-donation database for the listing witness. -/
def ddbSmall : DonationsDb := ⟨[userAda], [donationOne]⟩

/-! ## Theorems -/

theorem strStartsWith_append (p a b : List Char)
    (h : strStartsWith p (a ++ b) = true) : strStartsWith p a = true := by
  induction a generalizing p with
  | nil => simp [strStartsWith]
  | cons x xs ih =>
    cases p with
    | nil => simp [strStartsWith] at h
    | cons c cs =>
      simp only [List.cons_append, strStartsWith, Bool.and_eq_true] at h ⊢
      exact ⟨h.1, ih cs h.2⟩

theorem manage_not_lang (p : List Char)
    (h : strStartsWith p (str "/m") = true) :
    strStartsWith p (str "/lang/") = false := by
  have hm : str "/m" = '/' :: 'm' :: [] := rfl
  have hl : str "/lang/" = '/' :: 'l' :: 'a' :: 'n' :: 'g' :: '/' :: [] := rfl
  rw [hm] at h
  rw [hl]
  rcases p with _ | ⟨c, _ | ⟨d, rest⟩⟩
  · simp [strStartsWith] at h
  · simp [strStartsWith] at h
  · simp only [strStartsWith, Bool.and_eq_true, beq_iff_eq, and_true] at h
    obtain ⟨h1, h2⟩ := h
    subst h2
    have hml : ('m' == 'l') = false := rfl
    simp [strStartsWith, hml]

theorem dyn_startsWith_m (p : List Char) (h : isDynamicAdminRoute p = true) :
    strStartsWith p (str "/m") = true := by
  simp only [isDynamicAdminRoute, Bool.or_eq_true, Bool.and_eq_true] at h
  rcases h with (((⟨h1, -⟩ | ⟨h1, -⟩) | ⟨h1, -⟩) | ⟨h1, -⟩)
  · exact strStartsWith_append p (str "/m") (str "anage-events/") h1
  · exact strStartsWith_append p (str "/m") (str "anage-milestones/") h1
  · exact strStartsWith_append p (str "/m") (str "anage-donations/") h1
  · exact strStartsWith_append p (str "/m") (str "anage-participants/") h1

theorem dyn_not_public (p : List Char) (h : isDynamicAdminRoute p = true) :
    p ∉ public_routes := by
  intro hmem
  have hall : ∀ q ∈ public_routes, isDynamicAdminRoute q = false := by decide
  rw [hall p hmem] at h
  exact Bool.false_ne_true h

/-- C1: for every path matched by the dynamic admin prefix+suffix matcher, a
session that is not logged in or whose role does not lower-case to `admin`
receives the login render with the fixed `Authentication error` message; a
logged-in admin session passes through to the handler; and a session that is
not logged in never passes through, irrespective of the public allow-list. -/
theorem admin_pattern_access (p : List Char) (s : SessionState)
    (hp : isDynamicAdminRoute p = true) :
    (s.isLoggedIn = false ∨ lowerStr s.level ≠ str "admin" →
        authMiddleware p s = .renderLogin (str "Authentication error")) ∧
    (s.isLoggedIn = true ∧ lowerStr s.level = str "admin" →
        authMiddleware p s = .next) ∧
    (s.isLoggedIn = false → authMiddleware p s ≠ .next) := by
  have hlang : strStartsWith p (str "/lang/") = false :=
    manage_not_lang p (dyn_startsWith_m p hp)
  have hpub : p ∉ public_routes := dyn_not_public p hp
  refine ⟨?_, ?_, ?_⟩
  · intro hfail
    have hck : adminCheckFails s = true := by
      rcases hfail with hlog | hrole
      · simp [adminCheckFails, hlog]
      · simp [adminCheckFails, hrole]
    simp [authMiddleware, hpub, hlang, hp, hck]
  · rintro ⟨hlog, hrole⟩
    have hlev : (s.level == []) = false := by
      rcases hlev0 : s.level with _ | ⟨c, cs⟩
      · rw [hlev0] at hrole
        exact absurd hrole (by decide)
      · rfl
    have hck : adminCheckFails s = false := by
      simp [adminCheckFails, hlog, hlev, hrole]
    simp [authMiddleware, hpub, hlang, hp, hck]
  · intro hlog
    have hck : adminCheckFails s = true := by simp [adminCheckFails, hlog]
    simp [authMiddleware, hpub, hlang, hp, hck]

/-- Witness for C1 at the concrete path `/manage-events/5/delete` and an
unauthenticated session. -/
theorem admin_pattern_access_witness :
    isDynamicAdminRoute (str "/manage-events/5/delete") = true ∧
    authMiddleware (str "/manage-events/5/delete") ⟨false, [], 0⟩ =
      .renderLogin (str "Authentication error") ∧
    authMiddleware (str "/manage-events/5/delete") ⟨true, str "Admin", 3⟩ = .next := by
  refine ⟨by decide, ?_, ?_⟩
  · exact (admin_pattern_access (str "/manage-events/5/delete") ⟨false, [], 0⟩
      (by decide)).1 (Or.inl rfl)
  · exact (admin_pattern_access (str "/manage-events/5/delete") ⟨true, str "Admin", 3⟩
      (by decide)).2.1 ⟨rfl, by decide⟩

/-- The row inserted by a successful register call. -/
def newRegistration (now freshId uid eid : Nat) : Registration :=
  { registration_id := freshId
    user_id := uid
    event_occurrence_id := eid
    registration_status := none
    registration_attended_flag := none
    registration_check_in_time := none
    registration_created_at := some now }

theorem register_success (now freshId : Nat) (db : Db) (uid eid : Nat)
    (ev : EventOccurrence)
    (h0 : uid ≠ 0)
    (h1 : findOccurrence db eid = some ev)
    (h2 : ¬ ev.event_date_time_start < now)
    (h3 : deadlineBlocked ev.event_registration_deadline now = false)
    (h4 : findRegistration db uid eid = none)
    (h5 : capacityFull ev.event_capacity (countRegistrations db eid) = false) :
    registerForEvent now freshId db uid eid =
      (.ok, { db with registrations :=
        db.registrations ++ [newRegistration now freshId uid eid] }) := by
  simp [registerForEvent, h0, h1, h2, h3, h4, h5, newRegistration]

/-- C2: for an open occurrence, registering twice in sequence yields Ok and
then AlreadyRegistered, and the stored count for the pair is exactly 1 after
both calls; moreover any pre-existing row for the pair — whatever its status,
a `Cancelled` row included — makes register fail with AlreadyRegistered and
leave the database unchanged. -/
theorem register_twice (now f1 f2 : Nat) (db : Db) (uid eid : Nat)
    (ev : EventOccurrence)
    (h0 : uid ≠ 0)
    (h1 : findOccurrence db eid = some ev)
    (h2 : ¬ ev.event_date_time_start < now)
    (h3 : deadlineBlocked ev.event_registration_deadline now = false) :
    (findRegistration db uid eid = none →
      capacityFull ev.event_capacity (countRegistrations db eid) = false →
      (registerForEvent now f1 db uid eid).1 = .ok ∧
      (registerForEvent now f2 (registerForEvent now f1 db uid eid).2 uid eid).1 =
        .alreadyRegistered ∧
      (registerForEvent now f2 (registerForEvent now f1 db uid eid).2 uid eid).2 =
        (registerForEvent now f1 db uid eid).2 ∧
      countRegistrationsFor (registerForEvent now f1 db uid eid).2 uid eid = 1) ∧
    (∀ r : Registration, findRegistration db uid eid = some r →
      registerForEvent now f1 db uid eid = (.alreadyRegistered, db)) := by
  constructor
  · intro h4 h5
    have hreg := register_success now f1 db uid eid ev h0 h1 h2 h3 h4 h5
    rw [hreg]
    have h4f : List.find? (fun r => r.user_id == uid && r.event_occurrence_id == eid)
        db.registrations = none := h4
    have hnil : db.registrations.filter
        (fun r => r.user_id == uid && r.event_occurrence_id == eid) = [] := by
      rw [List.filter_eq_nil_iff]
      intro a ha
      exact List.find?_eq_none.mp h4 a ha
    have hfind : findRegistration
        { db with registrations :=
          db.registrations ++ [newRegistration now f1 uid eid] } uid eid =
        some (newRegistration now f1 uid eid) := by
      show (db.registrations ++ [newRegistration now f1 uid eid]).find?
        (fun r => r.user_id == uid && r.event_occurrence_id == eid) = _
      rw [List.find?_append, h4f]
      simp [newRegistration, List.find?]
    have h1b : findOccurrence
        { db with registrations :=
          db.registrations ++ [newRegistration now f1 uid eid] } eid = some ev := h1
    refine ⟨rfl, ?_, ?_, ?_⟩
    · simp [registerForEvent, h0, h1b, h2, h3, hfind]
    · simp [registerForEvent, h0, h1b, h2, h3, hfind]
    · show ((db.registrations ++ [newRegistration now f1 uid eid]).filter
        (fun r => r.user_id == uid && r.event_occurrence_id == eid)).length = 1
      rw [List.filter_append, hnil]
      simp [newRegistration, List.filter]
  · intro r h4
    have hsome : (findRegistration db uid eid).isSome = true := by rw [h4]; rfl
    simp [registerForEvent, h0, h1, h2, h3, hsome]

/-- Witness for C2: user 7 registers twice for the open occurrence of
`dbEmpty`, and a lone cancelled row (`dbCancelled`) blocks registration. -/
theorem register_twice_witness :
    ((registerForEvent 10 1 dbEmpty 7 1).1 = .ok ∧
     (registerForEvent 10 2 (registerForEvent 10 1 dbEmpty 7 1).2 7 1).1 =
       .alreadyRegistered ∧
     countRegistrationsFor (registerForEvent 10 1 dbEmpty 7 1).2 7 1 = 1) ∧
    registerForEvent 10 3 dbCancelled 7 1 = (.alreadyRegistered, dbCancelled) := by
  have ha := register_twice 10 1 2 dbEmpty 7 1 occNoCap (by decide) (by decide)
    (by decide) (by decide)
  have hb := register_twice 10 3 4 dbCancelled 7 1 occNoCap (by decide) (by decide)
    (by decide) (by decide)
  obtain ⟨l1, l2, l3, l4⟩ := ha.1 (by decide) (by decide)
  exact ⟨⟨l1, l2, l4⟩, hb.2 rowCancelled (by decide)⟩

/-- C3 counterexample: an occurrence whose capacity column is set — it holds
the value 0 — with current registration count 0 ≥ 0 does not fail with
CapacityReached: the register call succeeds and inserts a row, because the
guard tests the truthiness of the capacity and 0 is falsy. -/
theorem capacity_set_counterexample :
    findOccurrence dbCapZero 1 = some occCapZero ∧
    occCapZero.event_capacity = some 0 ∧
    (countRegistrations dbCapZero 1 : Int) ≥ 0 ∧
    (registerForEvent 10 1 dbCapZero 7 1).1 = .ok ∧
    (registerForEvent 10 1 dbCapZero 7 1).2.registrations.length = 1 := by decide

/-- C3 (amended): when the occurrence's capacity is set to a non-zero value
and the current count is at least the capacity, register fails with
CapacityReached and inserts nothing; and for a capacity-1 occurrence with no
registrations, user A then user B get Ok and then CapacityReached. -/
theorem capacity_reached_blocks (now fA fB : Nat) (db : Db) (uidA uidB eid : Nat)
    (ev : EventOccurrence)
    (h0 : uidA ≠ 0)
    (h1 : findOccurrence db eid = some ev)
    (h2 : ¬ ev.event_date_time_start < now)
    (h3 : deadlineBlocked ev.event_registration_deadline now = false)
    (h4 : findRegistration db uidA eid = none) :
    (∀ c : Int, ev.event_capacity = some c → c ≠ 0 →
       (countRegistrations db eid : Int) ≥ c →
       registerForEvent now fA db uidA eid = (.capacityReached, db)) ∧
    (ev.event_capacity = some 1 → countRegistrations db eid = 0 →
       uidB ≠ 0 → uidB ≠ uidA →
       (registerForEvent now fA db uidA eid).1 = .ok ∧
       (registerForEvent now fB (registerForEvent now fA db uidA eid).2 uidB eid).1 =
         .capacityReached) := by
  constructor
  · intro c hc hc0 hge
    have hcap : capacityFull ev.event_capacity (countRegistrations db eid) = true := by
      rw [hc]
      simp [capacityFull, hc0, hge]
    simp [registerForEvent, h0, h1, h2, h3, h4, hcap]
  · intro hc1 hcnt hB0 hBA
    have h5 : capacityFull ev.event_capacity (countRegistrations db eid) = false := by
      rw [hc1, hcnt]
      decide
    have hreg := register_success now fA db uidA eid ev h0 h1 h2 h3 h4 h5
    rw [hreg]
    refine ⟨rfl, ?_⟩
    have hnone : ∀ r ∈ db.registrations, (r.event_occurrence_id == eid) = false := by
      intro r hr
      by_contra hne
      have hmem : r ∈ db.registrations.filter (fun x => x.event_occurrence_id == eid) :=
        List.mem_filter.mpr ⟨hr, by simpa using hne⟩
      have hfe : db.registrations.filter (fun x => x.event_occurrence_id == eid) = [] :=
        List.length_eq_zero.mp hcnt
      rw [hfe] at hmem
      simp at hmem
    have h1b : findOccurrence
        { db with registrations :=
          db.registrations ++ [newRegistration now fA uidA eid] } eid = some ev := h1
    have hfB : findRegistration
        { db with registrations :=
          db.registrations ++ [newRegistration now fA uidA eid] } uidB eid = none := by
      show (db.registrations ++ [newRegistration now fA uidA eid]).find?
        (fun r => r.user_id == uidB && r.event_occurrence_id == eid) = none
      rw [List.find?_append]
      have hl : List.find? (fun r => r.user_id == uidB && r.event_occurrence_id == eid)
          db.registrations = none := by
        rw [List.find?_eq_none]
        intro x hx
        simp [hnone x hx]
      have hr : List.find? (fun r => r.user_id == uidB && r.event_occurrence_id == eid)
          [newRegistration now fA uidA eid] = none := by
        have huAB : (uidA == uidB) = false := by simp [Ne.symm hBA]
        simp [List.find?, newRegistration, huAB]
      rw [hl, hr]
      rfl
    have hcnt2 : countRegistrations
        { db with registrations :=
          db.registrations ++ [newRegistration now fA uidA eid] } eid = 1 := by
      show ((db.registrations ++ [newRegistration now fA uidA eid]).filter
        (fun r => r.event_occurrence_id == eid)).length = 1
      rw [List.filter_append]
      have hfe : db.registrations.filter (fun x => x.event_occurrence_id == eid) = [] :=
        List.length_eq_zero.mp hcnt
      rw [hfe]
      simp [newRegistration, List.filter]
    have hcap2 : capacityFull ev.event_capacity (countRegistrations
        { db with registrations :=
          db.registrations ++ [newRegistration now fA uidA eid] } eid) = true := by
      rw [hc1, hcnt2]
      decide
    simp [registerForEvent, hB0, h1b, h2, h3, hfB, hcap2]

/-- Witness for C3 (amended): on the capacity-1 occurrence of `dbCapOne`,
user 7 then user 8 get Ok and then CapacityReached, and a capacity-2
occurrence filled to 2 rejects with CapacityReached. -/
theorem capacity_reached_blocks_witness :
    (registerForEvent 10 1 dbCapOne 7 1).1 = .ok ∧
    (registerForEvent 10 2 (registerForEvent 10 1 dbCapOne 7 1).2 8 1).1 =
      .capacityReached := by
  have h := capacity_reached_blocks 10 1 2 dbCapOne 7 8 1 occCapOne (by decide)
    (by decide) (by decide) (by decide) (by decide)
  exact h.2 (by decide) (by decide) (by decide) (by decide)

/-- C4 counterexample: with the occurrence start equal to the current time
(start = now = 100), the register call does not fail with AlreadyStarted but
succeeds, because the source compares with strict `<`. -/
theorem already_started_boundary_counterexample :
    findOccurrence dbStart100 1 = some occStart100 ∧
    occStart100.event_date_time_start ≤ 100 ∧
    (registerForEvent 100 10 dbStart100 7 1).1 ≠ .alreadyStarted ∧
    (registerForEvent 100 10 dbStart100 7 1).1 = .ok := by decide

/-- C4 (amended): for an existing occurrence the register call fails with
AlreadyStarted exactly when the start is strictly before the current time —
irrespective of the deadline, duplicate and capacity state, which shows the
temporal check runs before those checks; an attempt at exactly the start
instant is not rejected by this check. -/
theorem already_started_strict (now f : Nat) (db : Db) (uid eid : Nat)
    (ev : EventOccurrence)
    (h0 : uid ≠ 0)
    (h1 : findOccurrence db eid = some ev) :
    (ev.event_date_time_start < now →
       registerForEvent now f db uid eid = (.alreadyStarted, db)) ∧
    ((registerForEvent now f db uid eid).1 = .alreadyStarted →
       ev.event_date_time_start < now) := by
  constructor
  · intro hlt
    simp [registerForEvent, h0, h1, hlt]
  · intro hres
    by_contra hge
    cases hdl : deadlineBlocked ev.event_registration_deadline now with
    | true => simp [registerForEvent, h0, h1, hge, hdl] at hres
    | false =>
      cases hdup : (findRegistration db uid eid).isSome with
      | true => simp [registerForEvent, h0, h1, hge, hdl, hdup] at hres
      | false =>
        cases hcap : capacityFull ev.event_capacity (countRegistrations db eid) with
        | true => simp [registerForEvent, h0, h1, hge, hdl, hdup, hcap] at hres
        | false => simp [registerForEvent, h0, h1, hge, hdl, hdup, hcap] at hres

/-- Witness for C4 (amended): on `dbStart100` a call at time 150 (after the
start) is rejected with AlreadyStarted. -/
theorem already_started_strict_witness :
    registerForEvent 150 10 dbStart100 7 1 = (.alreadyStarted, dbStart100) :=
  (already_started_strict 150 10 dbStart100 7 1 occStart100 (by decide)
    (by decide)).1 (by decide)

theorem cancel_preserves_count (sess : SessionState) (db : Db) (rid eid : Nat) :
    countRegistrations (cancelRegistration sess db rid).2 eid =
      countRegistrations db eid := by
  unfold cancelRegistration
  cases hf : db.registrations.find? (fun r => r.registration_id == rid) with
  | none => rfl
  | some r =>
    show ((db.registrations.map (fun x =>
        if x.registration_id == rid then
          { x with registration_status := some (str "Cancelled") }
        else x)).filter (fun r => r.event_occurrence_id == eid)).length =
      (db.registrations.filter (fun r => r.event_occurrence_id == eid)).length
    rw [List.filter_map, List.length_map]
    congr 1
    apply List.filter_congr
    intro x _
    show ((if x.registration_id == rid then
        { x with registration_status := some (str "Cancelled") }
      else x).event_occurrence_id == eid) = (x.event_occurrence_id == eid)
    cases hb : x.registration_id == rid <;> simp [hb]

/-- C8: the capacity check counts every registration row for the occurrence,
cancelled rows included: once the row count reaches a non-zero capacity,
an otherwise valid register call fails with CapacityReached and writes
nothing, and cancelling any registration never changes the row count the
check reads, so cancellation never frees a seat. -/
theorem cancelled_rows_occupy (now f : Nat) (db : Db) (uid eid : Nat)
    (ev : EventOccurrence) (c : Int)
    (h0 : uid ≠ 0)
    (h1 : findOccurrence db eid = some ev)
    (h2 : ¬ ev.event_date_time_start < now)
    (h3 : deadlineBlocked ev.event_registration_deadline now = false)
    (h4 : findRegistration db uid eid = none)
    (hc : ev.event_capacity = some c)
    (hc0 : c ≠ 0)
    (hge : (countRegistrations db eid : Int) ≥ c) :
    registerForEvent now f db uid eid = (.capacityReached, db) ∧
    (∀ sess : SessionState, ∀ rid : Nat,
       countRegistrations (cancelRegistration sess db rid).2 eid =
         countRegistrations db eid) := by
  constructor
  · have hcap : capacityFull ev.event_capacity (countRegistrations db eid) = true := by
      rw [hc]
      simp [capacityFull, hc0, hge]
    simp [registerForEvent, h0, h1, h2, h3, h4, hcap]
  · intro sess rid
    exact cancel_preserves_count sess db rid eid

/-- Witness for C8: in `dbFullCancelled` the capacity-1 occurrence holds one
cancelled row; user 7's register attempt fails with CapacityReached, and
cancelling row 1 leaves the counted rows unchanged. -/
theorem cancelled_rows_occupy_witness :
    registerForEvent 10 9 dbFullCancelled 7 1 = (.capacityReached, dbFullCancelled) ∧
    countRegistrations
      (cancelRegistration ⟨true, str "admin", 5⟩ dbFullCancelled 1).2 1 =
      countRegistrations dbFullCancelled 1 := by
  have h := cancelled_rows_occupy 10 9 dbFullCancelled 7 1 occCapOne 1 (by decide)
    (by decide) (by decide) (by decide) (by decide) (by decide) (by decide) (by decide)
  exact ⟨h.1, h.2 ⟨true, str "admin", 5⟩ 1⟩

/-- C9: an occurrence whose capacity column holds 0 is treated as unlimited:
a register call that passes the session, existence, start-time, deadline and
duplicate checks succeeds and inserts a row; and CapacityReached is only ever
returned when the capacity is a non-null, non-zero value. -/
theorem capacity_zero_unlimited (now f : Nat) (db : Db) (uid eid : Nat)
    (ev : EventOccurrence)
    (h0 : uid ≠ 0)
    (h1 : findOccurrence db eid = some ev)
    (h2 : ¬ ev.event_date_time_start < now)
    (h3 : deadlineBlocked ev.event_registration_deadline now = false)
    (h4 : findRegistration db uid eid = none)
    (hc : ev.event_capacity = some 0) :
    ((registerForEvent now f db uid eid).1 = .ok ∧
     (registerForEvent now f db uid eid).2.registrations =
       db.registrations ++ [newRegistration now f uid eid]) ∧
    (∀ now' f' : Nat, ∀ db' : Db, ∀ uid' eid' : Nat,
       (registerForEvent now' f' db' uid' eid').1 = .capacityReached →
       ∃ ev' : EventOccurrence, ∃ c : Int,
         findOccurrence db' eid' = some ev' ∧
         ev'.event_capacity = some c ∧ c ≠ 0) := by
  constructor
  · have h5 : capacityFull ev.event_capacity (countRegistrations db eid) = false := by
      rw [hc]
      simp [capacityFull]
    have hreg := register_success now f db uid eid ev h0 h1 h2 h3 h4 h5
    rw [hreg]
    exact ⟨rfl, rfl⟩
  · intro now' f' db' uid' eid' hres
    by_cases h0' : uid' = 0
    · simp [registerForEvent, h0'] at hres
    · cases hocc : findOccurrence db' eid' with
      | none => simp [registerForEvent, h0', hocc] at hres
      | some ev' =>
        by_cases hst : ev'.event_date_time_start < now'
        · simp [registerForEvent, h0', hocc, hst] at hres
        · cases hdl : deadlineBlocked ev'.event_registration_deadline now' with
          | true => simp [registerForEvent, h0', hocc, hst, hdl] at hres
          | false =>
            cases hdup : (findRegistration db' uid' eid').isSome with
            | true => simp [registerForEvent, h0', hocc, hst, hdl, hdup] at hres
            | false =>
              cases hcap : capacityFull ev'.event_capacity
                  (countRegistrations db' eid') with
              | false =>
                simp [registerForEvent, h0', hocc, hst, hdl, hdup, hcap] at hres
              | true =>
                refine ⟨ev', ?_⟩
                cases hcv : ev'.event_capacity with
                | none => rw [hcv] at hcap; simp [capacityFull] at hcap
                | some c =>
                  refine ⟨c, rfl, rfl, ?_⟩
                  rw [hcv] at hcap
                  simp only [capacityFull, Bool.and_eq_true, bne_iff_ne] at hcap
                  exact hcap.1

/-- Witness for C9: on the capacity-0 occurrence of `dbCapZero`, user 7's
register call succeeds and appends a row. -/
theorem capacity_zero_unlimited_witness :
    (registerForEvent 10 1 dbCapZero 7 1).1 = .ok ∧
    (registerForEvent 10 1 dbCapZero 7 1).2.registrations =
      dbCapZero.registrations ++ [newRegistration 10 1 7 1] :=
  (capacity_zero_unlimited 10 1 dbCapZero 7 1 occCapZero (by decide) (by decide)
    (by decide) (by decide) (by decide) (by decide)).1

/-- C10: the cancel route checks no ownership: its outcome is the same for
every session; a missing registration id gives the NotFound redirect with the
database unchanged; and for an existing id, any session at all gets the Ok
redirect aimed at the row's own user, while the update leaves the occurrence
table untouched, keeps every registration row count, rewrites the target's
status to `Cancelled`, preserves all other rows verbatim, and alters no field
except the status of rows carrying the target id. -/
theorem cancel_no_ownership_check (db : Db) (rid : Nat) :
    (∀ s1 s2 : SessionState,
       cancelRegistration s1 db rid = cancelRegistration s2 db rid) ∧
    (db.registrations.find? (fun r => r.registration_id == rid) = none →
       ∀ s : SessionState, cancelRegistration s db rid = (.notFound, db)) ∧
    (∀ r : Registration,
       db.registrations.find? (fun r => r.registration_id == rid) = some r →
       ∀ s : SessionState,
         (cancelRegistration s db rid).1 = .ok r.user_id ∧
         (cancelRegistration s db rid).2.event_occurrences = db.event_occurrences ∧
         (cancelRegistration s db rid).2.registrations.length =
           db.registrations.length ∧
         (∀ x ∈ db.registrations, x.registration_id ≠ rid →
            x ∈ (cancelRegistration s db rid).2.registrations) ∧
         (∀ x ∈ db.registrations, x.registration_id = rid →
            { x with registration_status := some (str "Cancelled") } ∈
              (cancelRegistration s db rid).2.registrations) ∧
         (∀ y ∈ (cancelRegistration s db rid).2.registrations,
            ∃ x ∈ db.registrations,
              y.registration_id = x.registration_id ∧
              y.user_id = x.user_id ∧
              y.event_occurrence_id = x.event_occurrence_id ∧
              y.registration_attended_flag = x.registration_attended_flag ∧
              y.registration_check_in_time = x.registration_check_in_time ∧
              y.registration_created_at = x.registration_created_at ∧
              (x.registration_id = rid →
                 y.registration_status = some (str "Cancelled")) ∧
              (x.registration_id ≠ rid →
                 y.registration_status = x.registration_status))) := by
  refine ⟨fun s1 s2 => rfl, ?_, ?_⟩
  · intro hf s
    simp [cancelRegistration, hf]
  · intro r hf s
    have hcr : cancelRegistration s db rid =
        (.ok r.user_id,
         { db with registrations := db.registrations.map (fun x =>
             if x.registration_id == rid then
               { x with registration_status := some (str "Cancelled") }
             else x) }) := by
      simp [cancelRegistration, hf]
    rw [hcr]
    refine ⟨rfl, rfl, by simp, ?_, ?_, ?_⟩
    · intro x hx hne
      have hb : (x.registration_id == rid) = false := by simp [hne]
      exact List.mem_map.mpr ⟨x, hx, by simp [hb]⟩
    · intro x hx heq
      have hb : (x.registration_id == rid) = true := by simp [heq]
      exact List.mem_map.mpr ⟨x, hx, by simp [hb]⟩
    · intro y hy
      obtain ⟨x, hx, hxy⟩ := List.mem_map.mp hy
      refine ⟨x, hx, ?_⟩
      cases hb : x.registration_id == rid with
      | true =>
        have hid : x.registration_id = rid := by simpa using hb
        rw [hb] at hxy
        simp only [if_pos rfl] at hxy
        subst hxy
        exact ⟨rfl, rfl, rfl, rfl, rfl, rfl, fun _ => rfl, fun hne => absurd hid hne⟩
      | false =>
        have hid : x.registration_id ≠ rid := by simpa using hb
        rw [hb] at hxy
        simp at hxy
        subst hxy
        exact ⟨rfl, rfl, rfl, rfl, rfl, rfl, fun heq => absurd heq hid, fun _ => rfl⟩

/-- Witness for C10: a session belonging to user 7 cancels registration 2,
which is owned by user 5; the call succeeds and the redirect targets user 5. -/
theorem cancel_no_ownership_check_witness :
    (cancelRegistration ⟨true, str "participant", 7⟩ dbCancelTarget 2).1 =
      .ok rowOwned5.user_id ∧
    (cancelRegistration ⟨true, str "participant", 7⟩ dbCancelTarget 2).2.event_occurrences =
      dbCancelTarget.event_occurrences := by
  have h := (cancel_no_ownership_check dbCancelTarget 2).2.2 rowOwned5 (by decide)
    ⟨true, str "participant", 7⟩
  exact ⟨h.1, h.2.1⟩

/-- C5 counterexample: with a survey already stored for registration 1, a
direct submit call does not fail with AlreadyExists — it succeeds and stores a
second survey for the same registration, so the one-survey-per-registration
bound is violated after two submits. -/
theorem survey_duplicate_counterexample :
    surveyExists sdbWithSurvey 1 = true ∧
    (submitSurvey 60 2 sdbWithSurvey 1 4 4 4 4 []).1 = .ok ∧
    countSurveysFor (submitSurvey 60 2 sdbWithSurvey 1 4 4 4 4 []).2 1 = 2 := by
  decide

/-- C5 (amended): the duplicate-survey guard lives only in the GET form route,
which refuses the form exactly when a survey row for the registration exists;
the POST submit route performs no duplicate check — whenever the referenced
registration exists it inserts unconditionally and grows the survey count for
that registration by one. -/
theorem survey_guard_in_form_route (now freshId : Nat) (db : SurveyDb) (rid : Nat)
    (s u i r : Int) (comments : List Char) :
    (surveyExists db rid = true ↔ ∃ v ∈ db.surveys, v.registration_id = rid) ∧
    ((db.registrations.find? (fun x => x.registration_id == rid)).isSome = true →
       (submitSurvey now freshId db rid s u i r comments).1 = .ok ∧
       countSurveysFor (submitSurvey now freshId db rid s u i r comments).2 rid =
         countSurveysFor db rid + 1) := by
  constructor
  · unfold surveyExists
    rw [List.find?_isSome]
    constructor
    · rintro ⟨v, hv, hp⟩
      exact ⟨v, hv, by simpa using hp⟩
    · rintro ⟨v, hv, hp⟩
      exact ⟨v, hv, by simpa using hp⟩
  · intro hfk
    constructor
    · simp [submitSurvey, hfk]
    · have hs : (submitSurvey now freshId db rid s u i r comments).2 =
          { db with surveys := db.surveys ++
            [{ survey_id := freshId, registration_id := rid,
               satisfaction_score := s, usefulness_score := u,
               instructor_score := i, recommendation_score := r,
               overall_score := overallScore s u i r, nps_bucket := npsBucket r,
               survey_comments := comments, survey_submission_date := now }] } := by
        simp [submitSurvey, hfk]
      rw [hs]
      simp only [countSurveysFor]
      rw [List.filter_append]
      simp [List.filter]

/-- Witness for C5 (amended): in `sdbWithSurvey` the form route refuses
(a survey exists for registration 1), while in `sdbNoSurvey` a submit succeeds
and raises the count from 0 to 1. -/
theorem survey_guard_in_form_route_witness :
    (∃ v ∈ sdbWithSurvey.surveys, v.registration_id = 1) ∧
    ((submitSurvey 60 1 sdbNoSurvey 1 5 4 3 4 []).1 = .ok ∧
     countSurveysFor (submitSurvey 60 1 sdbNoSurvey 1 5 4 3 4 []).2 1 =
       countSurveysFor sdbNoSurvey 1 + 1) :=
  ⟨(survey_guard_in_form_route 60 2 sdbWithSurvey 1 4 4 4 4 []).1.mp (by decide),
   (survey_guard_in_form_route 60 1 sdbNoSurvey 1 5 4 3 4 []).2 (by decide)⟩

/-- C6: the row stored by the submit route classifies from the recommendation
score alone — at least 4 gives Promoter, below 3 gives Detractor, exactly 3
gives Passive — and four times its overall score is the exact sum of the four
sub-scores (so the overall score is the exact, unrounded mean); the scores
5, 4, 3, 4 give overall score 4. -/
theorem survey_scoring (now freshId : Nat) (db : SurveyDb) (rid : Nat)
    (s u i r : Int) (comments : List Char)
    (hfk : (db.registrations.find? (fun x => x.registration_id == rid)).isSome = true) :
    ∃ v : Survey,
      (submitSurvey now freshId db rid s u i r comments).2.surveys =
        db.surveys ++ [v] ∧
      4 * v.overall_score = (s : ℚ) + (u : ℚ) + (i : ℚ) + (r : ℚ) ∧
      (r ≥ 4 → v.nps_bucket = str "Promoter") ∧
      (r < 3 → v.nps_bucket = str "Detractor") ∧
      (r = 3 → v.nps_bucket = str "Passive") ∧
      overallScore 5 4 3 4 = 4 := by
  refine ⟨{ survey_id := freshId, registration_id := rid, satisfaction_score := s,
            usefulness_score := u, instructor_score := i, recommendation_score := r,
            overall_score := overallScore s u i r, nps_bucket := npsBucket r,
            survey_comments := comments, survey_submission_date := now },
          by simp [submitSurvey, hfk], ?_, ?_, ?_, ?_, ?_⟩
  · show 4 * overallScore s u i r = _
    rw [overallScore]
    ring
  · intro h4
    show npsBucket r = _
    simp [npsBucket, h4]
  · intro h3
    show npsBucket r = _
    have hn4 : ¬ r ≥ 4 := by omega
    simp [npsBucket, hn4, h3]
  · intro heq
    subst heq
    show npsBucket 3 = _
    decide
  · show ((5 : ℚ) + 4 + 3 + 4) / 4 = 4
    norm_num

/-- Witness for C6 at the concrete submission {5, 4, 3, 4} on `sdbNoSurvey`. -/
theorem survey_scoring_witness :
    ∃ v : Survey,
      (submitSurvey 60 1 sdbNoSurvey 1 5 4 3 4 (str "great")).2.surveys =
        sdbNoSurvey.surveys ++ [v] ∧
      4 * v.overall_score = ((5 : Int) : ℚ) + ((4 : Int) : ℚ) + ((3 : Int) : ℚ) +
        ((4 : Int) : ℚ) ∧
      ((4 : Int) ≥ 4 → v.nps_bucket = str "Promoter") ∧
      ((4 : Int) < 3 → v.nps_bucket = str "Detractor") ∧
      ((4 : Int) = 3 → v.nps_bucket = str "Passive") ∧
      overallScore 5 4 3 4 = 4 :=
  survey_scoring 60 1 sdbNoSurvey 1 5 4 3 4 (str "great") (by decide)

theorem jsTrim_eq_nil_of_all (sq : List Char) (h : sq.all jsWhitespace = true) :
    jsTrim sq = [] := by
  unfold jsTrim
  have h1 : sq.dropWhile jsWhitespace = [] := by
    rw [List.dropWhile_eq_nil_iff]
    intro x hx
    exact List.all_eq_true.mp h x hx
  rw [h1]
  rfl

theorem jsCeilDiv_eq (a b : Nat) (hb : 0 < b) :
    jsCeilDiv a b = (a + b - 1) / b := by
  unfold jsCeilDiv
  have hbq : (0:ℚ) < (b:ℚ) := by exact_mod_cast hb
  have hdm := Nat.div_add_mod (a + b - 1) b
  have hmlt := Nat.mod_lt (a + b - 1) hb
  have h1 : a ≤ b * ((a + b - 1) / b) := by omega
  have h2 : b * ((a + b - 1) / b) < a + b := by omega
  have hceil : ⌈((a:ℚ) / (b:ℚ))⌉ = (((a + b - 1) / b : ℕ) : ℤ) := by
    rw [Int.ceil_eq_iff]
    constructor
    · rw [lt_div_iff₀ hbq, Int.cast_natCast]
      have h2q : (b:ℚ) * (((a + b - 1) / b : ℕ) : ℚ) < (a:ℚ) + (b:ℚ) := by
        exact_mod_cast h2
      nlinarith [h2q]
    · rw [div_le_iff₀ hbq, Int.cast_natCast]
      have h1q : (a:ℚ) ≤ (b:ℚ) * (((a + b - 1) / b : ℕ) : ℚ) := by
        exact_mod_cast h1
      nlinarith [h1q]
  rw [hceil]
  exact Int.toNat_natCast _

/-- Supporting lemma: the donations listing, for its part, does satisfy the
pagination contract for page p ≥ 1 — its count predicate coincides with its
data predicate row for row, the reported total count is the length of the
join filtered by the data predicate, the rendered page is the sorted filtered
join with (p−1)·20 rows skipped and 20 taken, a whitespace-only search
behaves exactly like an empty one, and totalPages is the ceiling of
totalCount / 20. -/
theorem manage_donations_pagination (db : DonationsDb) (searchQuery : List Char)
    (p : Nat) (hp : 1 ≤ p) :
    (∀ t : List Char, ∀ row : DonationRow,
       donationCountPred t row = donationSearchPred t row) ∧
    ((manageDonations db searchQuery (some p)).totalCount =
       (if jsTrim searchQuery != [] then
          (joinDonationsUsers db).filter (donationSearchPred (jsTrim searchQuery))
        else joinDonationsUsers db).length) ∧
    ((manageDonations db searchQuery (some p)).donation =
       ((sortRows dateDescNullsLast
           (if jsTrim searchQuery != [] then
              (joinDonationsUsers db).filter (donationSearchPred (jsTrim searchQuery))
            else joinDonationsUsers db)).drop ((p - 1) * 20)).take 20) ∧
    (searchQuery.all jsWhitespace = true →
       manageDonations db searchQuery (some p) = manageDonations db [] (some p)) ∧
    ((manageDonations db searchQuery (some p)).totalPages =
       ((manageDonations db searchQuery (some p)).totalCount + 20 - 1) / 20) := by
  obtain ⟨q, rfl⟩ : ∃ q, p = q + 1 := ⟨p - 1, by omega⟩
  refine ⟨fun t row => rfl, rfl, rfl, ?_, ?_⟩
  · intro hws
    have hts : jsTrim searchQuery = [] := jsTrim_eq_nil_of_all searchQuery hws
    have h0 : jsTrim ([] : List Char) = [] := rfl
    simp [manageDonations, hts, h0]
  · have hpages : (manageDonations db searchQuery (some (q + 1))).totalPages =
        jsCeilDiv ((manageDonations db searchQuery (some (q + 1))).totalCount) 20 :=
      rfl
    rw [hpages, jsCeilDiv_eq _ 20 (by norm_num)]

/-- Instance of the donations lemma: on the one-donation database, a
whitespace-only search at page 1 renders the same view as an empty search. -/
theorem manage_donations_pagination_witness :
    manageDonations ddbSmall (str "   ") (some 1) =
      manageDonations ddbSmall [] (some 1) :=
  (manage_donations_pagination ddbSmall (str "   ") 1 (by decide)).2.2.2.1 (by decide)

/-- C7: the claim fails at the `/manage-participants` listing — the count
query does not apply the same predicate as the data query.  Its data filter
has a full-name `concat_ws` clause that its count filter lacks, although the
code's own comment says the count query is built `with same filter`.  For the
search term `da Lo` and the lone user Ada Lovelace, the term matches only the
concatenated full name: the data query matches and renders one row, while the
reported totalCount is 0 and totalPages is 0. -/
theorem manage_participants_count_mismatch :
    participantsSearchPred (str "da lo") userAda = true ∧
    participantsCountPred (str "da lo") userAda = false ∧
    (manageParticipantsCounts [userAda] (str "da Lo")).1 = [userAda] ∧
    (manageParticipantsCounts [userAda] (str "da Lo")).2.1 = 0 ∧
    (manageParticipantsCounts [userAda] (str "da Lo")).2.2 = 0 := by
  refine ⟨by decide, by decide, by decide, by decide, ?_⟩
  calc (manageParticipantsCounts [userAda] (str "da Lo")).2.2
      = jsCeilDiv ((manageParticipantsCounts [userAda] (str "da Lo")).2.1) 20 := rfl
    _ = jsCeilDiv 0 20 := by
        rw [show (manageParticipantsCounts [userAda] (str "da Lo")).2.1 = 0 by decide]
    _ = (0 + 20 - 1) / 20 := jsCeilDiv_eq 0 20 (by norm_num)
    _ = 0 := by norm_num

end EllaRises
